import Mathlib

/-!
Verification of the retrieval-augmented chat orchestrator in
`app/backend/approaches/chatreadretrieveread.py` (text variant) and
`app/backend/approaches/chatreadretrievereadvision.py` (vision variant).

The two `run_until_final_call` methods are embedded shallowly as pure Lean
functions.  External collaborators (the model-completion client, the embedding
computation, the search backend, the image fetcher, the token-budget message
builder, and the helper methods inherited from classes whose files are not part
of the provided sources) are passed in as a record of oracle functions.  Every
awaited external I/O call performed by the orchestrator is logged in an event
trace, and the deferred (un-awaited) final completion request is returned as a
plain request record, mirroring the coroutine handle the Python code returns.
-/

namespace AzureChat

/-- A part of structured (multi-part) chat message content: a text segment or
an image-URL segment, mirroring the OpenAI content-part dictionaries. -/
inductive ContentPart where
  | textPart (s : String)
  | imagePart (url : String)
deriving DecidableEq

/-- Message content: either a plain string or structured multi-part content. -/
inductive MessageContent where
  | text (s : String)
  | parts (ps : List ContentPart)
deriving DecidableEq

/-- Whether message content is a plain string (Python `isinstance(c, str)`). -/
def MessageContent.isString : MessageContent → Bool
  | .text _ => true
  | .parts _ => false

/-- A conversation message: role plus content. -/
structure ChatMessage where
  role : String
  content : MessageContent
deriving DecidableEq

/-- The `overrides` dictionary: each recognized key is modelled as a field.
Missing keys are `none`; the two semantic flags and the follow-up flag are
modelled as the Python truthiness of the stored value. -/
structure Overrides where
  seed : Option Int
  retrieval_mode : Option String
  semantic_ranker : Bool
  semantic_captions : Bool
  top : Option Nat
  minimum_search_score : Option Rat
  minimum_reranker_score : Option Rat
  temperature : Option Rat
  prompt_template : Option String
  suggest_followup_questions : Bool
  vector_fields : Option (List String)
  gpt4v_input : Option String
deriving DecidableEq

/-- Opaque auth-claims dictionary; only passed through to `build_filter`. -/
abbrev AuthClaims := List (String × String)

/-- A retrieved search document, per the spec data model: citation key derived
from the source-page field, content, optional semantic caption, optional
opaque image reference. -/
structure SearchResult where
  citation_key : String
  content : String
  caption : Option String
  image_reference : Option String
deriving DecidableEq

/-- An opaque query vector produced by the embedding collaborator. -/
structure VectorQuery where
  data : List Nat
deriving DecidableEq

/-- An opaque model completion, consumed only by `get_search_query`. -/
structure ChatCompletion where
  payload : String
deriving DecidableEq

/-- The single-function tool schema passed to the query-rewriting model call,
flattened from the JSON dictionary literal in the source. -/
structure ToolParam where
  type : String
  function_name : String
  description : String
  param_name : String
  param_type : String
  param_description : String
  required : List String
deriving DecidableEq

/-- The `search_sources` tool literal from chatreadretrieveread.py (quotation
marks inside the example string elided). -/
def search_sources_tool : ToolParam :=
  { type := "function"
    function_name := "search_sources"
    description := "Retrieve sources from the Azure AI Search index"
    param_name := "search_query"
    param_type := "string"
    param_description := "Query string to retrieve documents from azure search eg: Health care plan"
    required := ["search_query"] }

/-- The argument record of one `build_messages` invocation (the external
token-budget prompt builder).  Optional fields model keyword arguments the
source does or does not pass at each call site. -/
structure BuildRequest where
  model : String
  system_prompt : String
  tools : Option (List ToolParam)
  few_shots : Option (List ChatMessage)
  past_messages : List ChatMessage
  new_user_content : MessageContent
  max_tokens : Int
  fallback_to_default : Option Bool
deriving DecidableEq

/-- The argument record of the awaited query-rewriting completion call. -/
structure CompletionRequest where
  model : String
  msgs : List ChatMessage
  temperature : Rat
  max_tokens : Nat
  n : Nat
  tools : Option (List ToolParam)
  seed : Option Int
deriving DecidableEq

/-- The argument record of the search-collaborator invocation. -/
structure SearchRequest where
  top : Nat
  query_text : String
  filter : Option String
  vectors : List VectorQuery
  use_text_search : Bool
  use_vector_search : Bool
  use_semantic_ranker : Bool
  use_semantic_captions : Bool
  minimum_search_score : Rat
  minimum_reranker_score : Rat
deriving DecidableEq

/-- The argument record of the deferred final completion call (the coroutine
returned un-awaited by `run_until_final_call`). -/
structure ChatCall where
  model : String
  msgs : List ChatMessage
  temperature : Rat
  max_tokens : Nat
  n : Nat
  stream : Bool
  seed : Option Int
deriving DecidableEq

/-- A value stored in a ThoughtStep props dictionary. -/
inductive PropValue where
  | str (s : String)
  | num (x : Nat)
  | flag (x : Bool)
  | optS (o : Option String)
  | strs (l : List String)
deriving DecidableEq

/-- The content payload of a ThoughtStep: a message list (prompt), the query
string, or the serialized search results. -/
inductive ThoughtContent where
  | msgs (ms : List ChatMessage)
  | query (s : String)
  | results (rs : List String)
deriving DecidableEq

/-- A ThoughtStep: title, content, optional props dictionary (modelled as an
insertion-ordered association list). -/
structure ThoughtStep where
  title : String
  content : ThoughtContent
  props : Option (List (String × PropValue))
deriving DecidableEq

/-- The returned metadata: data_points plus the thought trace. -/
structure DataPoints where
  text : Option (List String)
  images : Option (List String)
deriving DecidableEq

structure ExtraInfo where
  data_points : DataPoints
  thoughts : List ThoughtStep
deriving DecidableEq

/-- The value produced by `run_until_final_call`:
either a fatal input error, the `(extra_info, chat_coroutine)` pair, or — on
the text variant's no-sources path — the single dictionary
`\x7b"data_points": ..., "thoughts": ..., "chat_coroutine": ...\x7d` that the
source returns there instead of a pair. -/
inductive RunResult where
  | inputError (msg : String)
  | pair (info : ExtraInfo) (chat : ChatCall)
  | dictReturn (data_points : DataPoints) (thoughts : List ThoughtStep) (chat : ChatCall)
deriving DecidableEq

def RunResult.isInputError : RunResult → Bool
  | .inputError _ => true
  | _ => false

/-- Whether the run returned the `(extra_info, chat_coroutine)` pair form. -/
def RunResult.isPair : RunResult → Bool
  | .pair _ _ => true
  | _ => false

/-- The thought trace carried by a run result, on any non-error path. -/
def resultThoughts : RunResult → Option (List ThoughtStep)
  | .inputError _ => none
  | .pair info _ => some info.thoughts
  | .dictReturn _ thoughts _ => some thoughts

/-- The data_points carried by a run result, on any non-error path. -/
def resultDataPoints : RunResult → Option DataPoints
  | .inputError _ => none
  | .pair info _ => some info.data_points
  | .dictReturn data_points _ _ => some data_points

/-- One awaited external call performed during the run (the spec's suspension
points: the prompt builder, model completion, embedding computation, search
invocation, image fetch). -/
inductive Event where
  | buildCall (r : BuildRequest)
  | modelCall (r : CompletionRequest)
  | embedText (q : String)
  | embedImage (q : String)
  | searchCall (r : SearchRequest)
  | imageFetch (r : SearchResult)
deriving DecidableEq

/-- The full observable outcome of a run: the ordered trace of awaited
external calls and the returned value. -/
structure RunOutput where
  calls : List Event
  result : RunResult
deriving DecidableEq

def eventBuild : Event → Option BuildRequest
  | .buildCall r => some r
  | _ => none

def eventModel : Event → Option CompletionRequest
  | .modelCall r => some r
  | _ => none

def eventEmbedText : Event → Option String
  | .embedText q => some q
  | _ => none

def eventEmbedImage : Event → Option String
  | .embedImage q => some q
  | _ => none

def eventSearch : Event → Option SearchRequest
  | .searchCall r => some r
  | _ => none

def eventImageFetch : Event → Option SearchResult
  | .imageFetch r => some r
  | _ => none

def searchCalls (out : RunOutput) : List SearchRequest :=
  out.calls.filterMap eventSearch

def buildCalls (out : RunOutput) : List BuildRequest :=
  out.calls.filterMap eventBuild

def modelCalls (out : RunOutput) : List CompletionRequest :=
  out.calls.filterMap eventModel

def embedTextCalls (out : RunOutput) : List String :=
  out.calls.filterMap eventEmbedText

def embedImageCalls (out : RunOutput) : List String :=
  out.calls.filterMap eventEmbedImage

def imageFetches (out : RunOutput) : List SearchResult :=
  out.calls.filterMap eventImageFetch

/-- The external collaborators and the inherited helper methods whose defining
files (approach.py, chatapproach.py, core helpers) are not part of the
provided sources: each is an opaque oracle function. -/
structure Collaborators where
  build_filter : Overrides → AuthClaims → Option String
  build_messages : BuildRequest → List ChatMessage
  create_chat_completion : CompletionRequest → ChatCompletion
  get_search_query : ChatCompletion → String → String
  compute_text_embedding : String → VectorQuery
  compute_image_embedding : String → VectorQuery
  search : SearchRequest → List SearchResult
  fetch_image : SearchResult → Option String
  get_system_prompt : Option String → String → String
  serialize_for_results : SearchResult → String
  query_prompt_template : String
  query_prompt_few_shots : List ChatMessage
  follow_up_questions_prompt_content : String

/-- Python `x if x else y` on an optional string: the empty string is falsy. -/
def pyStrOr (x : Option String) (y : String) : String :=
  match x with
  | some s => if s == "" then y else s
  | none => y

/-- Python truthiness of an optional string. -/
def truthyStr : Option String → Bool
  | some s => !(s == "")
  | none => false

/-- Modelled from the spec: `get_sources_content` is defined in
approaches/approach.py, which is not among the provided sources.  Per spec
section 4.3 (ContextComposer), for each SearchResult it emits
"citation_key: content-or-caption", using the semantic caption when
`use_semantic_captions` is true and a caption exists, else the full content;
when image citation is requested it appends a reference marker to the citation
key (the exact marker text is unspecified by the spec).  Per spec section 8 the
output is length- and order-preserving over the input results. -/
def get_sources_content (results : List SearchResult)
    (use_semantic_captions : Bool) (use_image_citation : Bool) : List String :=
  results.map fun r =>
    let body :=
      if use_semantic_captions then
        match r.caption with
        | some c => c
        | none => r.content
      else r.content
    let key :=
      if use_image_citation then r.citation_key ++ " (image)" else r.citation_key
    key ++ ": " ++ body

/-- Immutable configuration of the text-variant orchestrator, set at
construction: model name, optional Azure deployment name, the token limit
computed by `get_token_limit`, and the `ALLOW_NON_GPT_MODELS` class constant
inherited from the (absent) base class. -/
structure TextApproachConfig where
  chatgpt_model : String
  chatgpt_deployment : Option String
  chatgpt_token_limit : Nat
  allow_non_gpt_models : Bool
deriving DecidableEq

/-- Immutable configuration of the vision-variant orchestrator.  Its
`chatgpt_token_limit` is computed from the gpt4v model, per the source. -/
structure VisionApproachConfig where
  chatgpt_model : String
  chatgpt_deployment : Option String
  gpt4v_model : String
  gpt4v_deployment : Option String
  chatgpt_token_limit : Nat
  allow_non_gpt_models : Bool
deriving DecidableEq

namespace ChatReadRetrieveReadApproach

/-!
Shallow embedding of `ChatReadRetrieveReadApproach.run_until_final_call`
(chatreadretrieveread.py, lines 150-340).  Each local value computed by the
Python method body is a named top-level definition; `run_until_final_call`
assembles them exactly as the source does.  Pure collaborator oracles replace
awaited I/O; every awaited external call is logged, in order, in the returned
trace.  The deferred final completion coroutine is returned as an un-awaited
`ChatCall` record.
-/

/-- The arguments of one invocation, bundled. -/
structure Args where
  cfg : TextApproachConfig
  co : Collaborators
  messages : List ChatMessage
  overrides : Overrides
  auth_claims : AuthClaims
  should_stream : Bool

/-- `overrides.get("retrieval_mode") in ["text", "hybrid", None]` -/
def use_text_search (a : Args) : Bool :=
  a.overrides.retrieval_mode == some "text" ||
  a.overrides.retrieval_mode == some "hybrid" ||
  a.overrides.retrieval_mode == none

/-- `overrides.get("retrieval_mode") in ["vectors", "hybrid", None]` -/
def use_vector_search (a : Args) : Bool :=
  a.overrides.retrieval_mode == some "vectors" ||
  a.overrides.retrieval_mode == some "hybrid" ||
  a.overrides.retrieval_mode == none

/-- `self.build_filter(overrides, auth_claims)` -/
def filter (a : Args) : Option String :=
  a.co.build_filter a.overrides a.auth_claims

/-- The `build_messages` call of STEP 1 (query generation). -/
def query_build (a : Args) (orig : String) : BuildRequest :=
  { model := a.cfg.chatgpt_model
    system_prompt := a.co.query_prompt_template
    tools := some [search_sources_tool]
    few_shots := some a.co.query_prompt_few_shots
    past_messages := a.messages.dropLast
    new_user_content := .text ("Generate search query for: " ++ orig)
    max_tokens := (a.cfg.chatgpt_token_limit : Int) - 100
    fallback_to_default := some a.cfg.allow_non_gpt_models }

def query_messages (a : Args) (orig : String) : List ChatMessage :=
  a.co.build_messages (query_build a orig)

/-- The awaited query-generation completion call: temperature 0.0,
max_tokens = query_response_token_limit (100), n=1, tools, seed. -/
def query_request (a : Args) (orig : String) : CompletionRequest :=
  { model := pyStrOr a.cfg.chatgpt_deployment a.cfg.chatgpt_model
    msgs := query_messages a orig
    temperature := 0
    max_tokens := 100
    n := 1
    tools := some [search_sources_tool]
    seed := a.overrides.seed }

/-- `self.get_search_query(chat_completion, original_user_query)` -/
def query_text (a : Args) (orig : String) : String :=
  a.co.get_search_query (a.co.create_chat_completion (query_request a orig)) orig

/-- STEP 2 embedding: one text embedding of the query, only when vector
search is active. -/
def vectors (a : Args) (orig : String) : List VectorQuery :=
  if use_vector_search a then [a.co.compute_text_embedding (query_text a orig)] else []

/-- The search-collaborator invocation of STEP 2. -/
def search_request (a : Args) (orig : String) : SearchRequest :=
  { top := a.overrides.top.getD 3
    query_text := query_text a orig
    filter := filter a
    vectors := vectors a orig
    use_text_search := use_text_search a
    use_vector_search := use_vector_search a
    use_semantic_ranker := a.overrides.semantic_ranker
    use_semantic_captions := a.overrides.semantic_captions
    minimum_search_score := a.overrides.minimum_search_score.getD 0
    minimum_reranker_score := a.overrides.minimum_reranker_score.getD 0 }

def results (a : Args) (orig : String) : List SearchResult :=
  a.co.search (search_request a orig)

def sources_content (a : Args) (orig : String) : List String :=
  get_sources_content (results a orig) a.overrides.semantic_captions false

/-- `self.get_system_prompt(overrides.get("prompt_template"), ...)` -/
def system_message (a : Args) : String :=
  a.co.get_system_prompt a.overrides.prompt_template
    (if a.overrides.suggest_followup_questions then a.co.follow_up_questions_prompt_content
     else "")

/-- The `build_messages` call of the no-sources path: the raw original user
question, with no sources appended. -/
def answer_build_empty (a : Args) (orig : String) : BuildRequest :=
  { model := a.cfg.chatgpt_model
    system_prompt := system_message a
    tools := none
    few_shots := none
    past_messages := a.messages.dropLast
    new_user_content := .text orig
    max_tokens := (a.cfg.chatgpt_token_limit : Int) - 1024
    fallback_to_default := some a.cfg.allow_non_gpt_models }

/-- The `build_messages` call of the grounded path (STEP 3): sources are
appended to the user question content, not to the system message. -/
def answer_build_grounded (a : Args) (orig : String) : BuildRequest :=
  { model := a.cfg.chatgpt_model
    system_prompt := system_message a
    tools := none
    few_shots := none
    past_messages := a.messages.dropLast
    new_user_content := .text (orig ++ "\n\nSources:\n" ++
      String.intercalate "\n" (sources_content a orig))
    max_tokens := (a.cfg.chatgpt_token_limit : Int) - 1024
    fallback_to_default := some a.cfg.allow_non_gpt_models }

/-- The deferred final completion call: caller temperature (default 0.3),
max_tokens = response_token_limit (1024), n=1, caller stream flag, seed. -/
def chat_coroutine (a : Args) (msgs : List ChatMessage) : ChatCall :=
  { model := pyStrOr a.cfg.chatgpt_deployment a.cfg.chatgpt_model
    msgs := msgs
    temperature := a.overrides.temperature.getD (3 / 10)
    max_tokens := 1024
    n := 1
    stream := a.should_stream
    seed := a.overrides.seed }

/-- The model/deployment props dictionary attached to prompt ThoughtSteps. -/
def model_props (a : Args) : List (String × PropValue) :=
  if truthyStr a.cfg.chatgpt_deployment then
    [("model", .str a.cfg.chatgpt_model), ("deployment", .optS a.cfg.chatgpt_deployment)]
  else
    [("model", .str a.cfg.chatgpt_model)]

/-- The grounded path's 4-step thought trace, in source order. -/
def thoughts (a : Args) (orig : String) : List ThoughtStep :=
  [⟨"Prompt to generate search query", .msgs (query_messages a orig), some (model_props a)⟩,
   ⟨"Search using generated search query", .query (query_text a orig), some
     [("use_semantic_captions", .flag a.overrides.semantic_captions),
      ("use_semantic_ranker", .flag a.overrides.semantic_ranker),
      ("top", .num (a.overrides.top.getD 3)),
      ("filter", .optS (filter a)),
      ("use_vector_search", .flag (use_vector_search a)),
      ("use_text_search", .flag (use_text_search a))]⟩,
   ⟨"Search results", .results ((results a orig).map a.co.serialize_for_results), none⟩,
   ⟨"Prompt to generate answer", .msgs (a.co.build_messages (answer_build_grounded a orig)),
     some (model_props a)⟩]

/-- The awaited external calls made before the no-sources branch decision:
query prompt build, query completion, optional query embedding, search. -/
def calls_before (a : Args) (orig : String) : List Event :=
  [.buildCall (query_build a orig), .modelCall (query_request a orig)] ++
    (if use_vector_search a then [.embedText (query_text a orig)] else []) ++
    [.searchCall (search_request a orig)]

def run (a : Args) : RunOutput :=
  match a.messages.getLast? with
  | none => ⟨[], .inputError "list index out of range"⟩
  | some lastMessage =>
    match lastMessage.content with
    | .parts _ => ⟨[], .inputError "The most recent message content must be a string."⟩
    | .text original_user_query =>
      if (sources_content a original_user_query).isEmpty then
        ⟨calls_before a original_user_query ++
            [.buildCall (answer_build_empty a original_user_query)],
          .dictReturn ⟨none, none⟩ []
            (chat_coroutine a
              (a.co.build_messages (answer_build_empty a original_user_query)))⟩
      else
        ⟨calls_before a original_user_query ++
            [.buildCall (answer_build_grounded a original_user_query)],
          .pair
            ⟨⟨some (sources_content a original_user_query), none⟩,
              thoughts a original_user_query⟩
            (chat_coroutine a
              (a.co.build_messages (answer_build_grounded a original_user_query)))⟩

/-- `ChatReadRetrieveReadApproach.run_until_final_call`, with the source's
positional signature. -/
def run_until_final_call (cfg : TextApproachConfig) (co : Collaborators)
    (messages : List ChatMessage) (overrides : Overrides)
    (auth_claims : AuthClaims) (should_stream : Bool) : RunOutput :=
  run ⟨cfg, co, messages, overrides, auth_claims, should_stream⟩

end ChatReadRetrieveReadApproach

namespace ChatReadRetrieveReadVisionApproach

/-!
Shallow embedding of `ChatReadRetrieveReadVisionApproach.run_until_final_call`
(chatreadretrievereadvision.py, lines 144-308), in the same named-component
style as the text variant.  Unlike the text variant it has no no-sources
short-circuit: it always proceeds through the grounded path.
-/

/-- The arguments of one invocation, bundled. -/
structure Args where
  cfg : VisionApproachConfig
  co : Collaborators
  messages : List ChatMessage
  overrides : Overrides
  auth_claims : AuthClaims
  should_stream : Bool

/-- `overrides.get("retrieval_mode") in ["text", "hybrid", None]` -/
def use_text_search (a : Args) : Bool :=
  a.overrides.retrieval_mode == some "text" ||
  a.overrides.retrieval_mode == some "hybrid" ||
  a.overrides.retrieval_mode == none

/-- `overrides.get("retrieval_mode") in ["vectors", "hybrid", None]` -/
def use_vector_search (a : Args) : Bool :=
  a.overrides.retrieval_mode == some "vectors" ||
  a.overrides.retrieval_mode == some "hybrid" ||
  a.overrides.retrieval_mode == none

/-- `self.build_filter(overrides, auth_claims)` -/
def filter (a : Args) : Option String :=
  a.co.build_filter a.overrides a.auth_claims

/-- `overrides.get("vector_fields", ["embedding"])` -/
def vector_fields (a : Args) : List String :=
  a.overrides.vector_fields.getD ["embedding"]

/-- `overrides.get("gpt4v_input") in ["textAndImages", "texts", None]` -/
def send_text_to_gptvision (a : Args) : Bool :=
  a.overrides.gpt4v_input == some "textAndImages" ||
  a.overrides.gpt4v_input == some "texts" ||
  a.overrides.gpt4v_input == none

/-- `overrides.get("gpt4v_input") in ["textAndImages", "images", None]` -/
def send_images_to_gptvision (a : Args) : Bool :=
  a.overrides.gpt4v_input == some "textAndImages" ||
  a.overrides.gpt4v_input == some "images" ||
  a.overrides.gpt4v_input == none

/-- The `build_messages` call of STEP 1 (query generation); this variant
passes no tools and no fallback flag. -/
def query_build (a : Args) (orig : String) : BuildRequest :=
  { model := a.cfg.chatgpt_model
    system_prompt := a.co.query_prompt_template
    tools := none
    few_shots := some a.co.query_prompt_few_shots
    past_messages := a.messages.dropLast
    new_user_content := .text ("Generate search query for: " ++ orig)
    max_tokens := (a.cfg.chatgpt_token_limit : Int) - 100
    fallback_to_default := none }

def query_messages (a : Args) (orig : String) : List ChatMessage :=
  a.co.build_messages (query_build a orig)

/-- The awaited query-generation completion call: temperature 0.0,
max_tokens = query_response_token_limit (100), n=1, seed; no tools. -/
def query_request (a : Args) (orig : String) : CompletionRequest :=
  { model := pyStrOr a.cfg.chatgpt_deployment a.cfg.chatgpt_model
    msgs := query_messages a orig
    temperature := 0
    max_tokens := 100
    n := 1
    tools := none
    seed := a.overrides.seed }

/-- `self.get_search_query(chat_completion, original_user_query)` -/
def query_text (a : Args) (orig : String) : String :=
  a.co.get_search_query (a.co.create_chat_completion (query_request a orig)) orig

/-- STEP 2 embedding: when vector search is active, one embedding per
configured vector field — a text embedding for the "embedding" field, an
image embedding otherwise. -/
def vectors (a : Args) (orig : String) : List VectorQuery :=
  if use_vector_search a then
    (vector_fields a).map fun field =>
      if field == "embedding" then a.co.compute_text_embedding (query_text a orig)
      else a.co.compute_image_embedding (query_text a orig)
  else []

/-- The embedding events corresponding to `vectors`, in loop order. -/
def embed_events (a : Args) (orig : String) : List Event :=
  if use_vector_search a then
    (vector_fields a).map fun field =>
      if field == "embedding" then .embedText (query_text a orig)
      else .embedImage (query_text a orig)
  else []

/-- The search-collaborator invocation of STEP 2. -/
def search_request (a : Args) (orig : String) : SearchRequest :=
  { top := a.overrides.top.getD 3
    query_text := query_text a orig
    filter := filter a
    vectors := vectors a orig
    use_text_search := use_text_search a
    use_vector_search := use_vector_search a
    use_semantic_ranker := a.overrides.semantic_ranker
    use_semantic_captions := a.overrides.semantic_captions
    minimum_search_score := a.overrides.minimum_search_score.getD 0
    minimum_reranker_score := a.overrides.minimum_reranker_score.getD 0 }

def results (a : Args) (orig : String) : List SearchResult :=
  a.co.search (search_request a orig)

/-- Sources with image citation requested. -/
def sources_content (a : Args) (orig : String) : List String :=
  get_sources_content (results a orig) a.overrides.semantic_captions true

/-- `self.get_system_prompt(overrides.get("prompt_template"), ...)` -/
def system_message (a : Args) : String :=
  a.co.get_system_prompt a.overrides.prompt_template
    (if a.overrides.suggest_followup_questions then a.co.follow_up_questions_prompt_content
     else "")

/-- The resolved image URLs: when image-sending is enabled, a fetch is
attempted per retrieved result and unresolved references are skipped. -/
def image_list (a : Args) (orig : String) : List String :=
  if send_images_to_gptvision a then (results a orig).filterMap a.co.fetch_image else []

/-- The image-fetch events: one per retrieved result, in retrieval order,
when image-sending is enabled. -/
def fetch_events (a : Args) (orig : String) : List Event :=
  if send_images_to_gptvision a then (results a orig).map .imageFetch else []

/-- The multi-part final user content: the original question text part, then
optionally the sources text part, then one image part per resolved URL. -/
def user_content (a : Args) (orig : String) : List ContentPart :=
  [.textPart orig] ++
    (if send_text_to_gptvision a then
      [.textPart ("\n\nSources:\n" ++ String.intercalate "\n" (sources_content a orig))]
     else []) ++
    (image_list a orig).map .imagePart

/-- The `build_messages` call of STEP 3, against the gpt4v model. -/
def answer_build (a : Args) (orig : String) : BuildRequest :=
  { model := a.cfg.gpt4v_model
    system_prompt := system_message a
    tools := none
    few_shots := none
    past_messages := a.messages.dropLast
    new_user_content := .parts (user_content a orig)
    max_tokens := (a.cfg.chatgpt_token_limit : Int) - 1024
    fallback_to_default := some a.cfg.allow_non_gpt_models }

/-- data_points: sources text plus the resolved image URLs. -/
def data_points (a : Args) (orig : String) : DataPoints :=
  ⟨some (sources_content a orig), some (image_list a orig)⟩

def query_model_props (a : Args) : List (String × PropValue) :=
  if truthyStr a.cfg.chatgpt_deployment then
    [("model", .str a.cfg.chatgpt_model), ("deployment", .optS a.cfg.chatgpt_deployment)]
  else
    [("model", .str a.cfg.chatgpt_model)]

def answer_model_props (a : Args) : List (String × PropValue) :=
  if truthyStr a.cfg.gpt4v_deployment then
    [("model", .str a.cfg.gpt4v_model), ("deployment", .optS a.cfg.gpt4v_deployment)]
  else
    [("model", .str a.cfg.gpt4v_model)]

/-- The 4-step thought trace, in source order. -/
def thoughts (a : Args) (orig : String) : List ThoughtStep :=
  [⟨"Prompt to generate search query", .msgs (query_messages a orig),
     some (query_model_props a)⟩,
   ⟨"Search using generated search query", .query (query_text a orig), some
     [("use_semantic_captions", .flag a.overrides.semantic_captions),
      ("use_semantic_ranker", .flag a.overrides.semantic_ranker),
      ("top", .num (a.overrides.top.getD 3)),
      ("filter", .optS (filter a)),
      ("vector_fields", .strs (vector_fields a)),
      ("use_text_search", .flag (use_text_search a))]⟩,
   ⟨"Search results", .results ((results a orig).map a.co.serialize_for_results), none⟩,
   ⟨"Prompt to generate answer", .msgs (a.co.build_messages (answer_build a orig)),
     some (answer_model_props a)⟩]

/-- The deferred final completion call against the gpt4v model. -/
def chat_coroutine (a : Args) (orig : String) : ChatCall :=
  { model := pyStrOr a.cfg.gpt4v_deployment a.cfg.gpt4v_model
    msgs := a.co.build_messages (answer_build a orig)
    temperature := a.overrides.temperature.getD (3 / 10)
    max_tokens := 1024
    n := 1
    stream := a.should_stream
    seed := a.overrides.seed }

def run (a : Args) : RunOutput :=
  match a.messages.getLast? with
  | none => ⟨[], .inputError "list index out of range"⟩
  | some lastMessage =>
    match lastMessage.content with
    | .parts _ => ⟨[], .inputError "The most recent message content must be a string."⟩
    | .text original_user_query =>
      ⟨[.buildCall (query_build a original_user_query),
          .modelCall (query_request a original_user_query)] ++
          embed_events a original_user_query ++
          [.searchCall (search_request a original_user_query)] ++
          fetch_events a original_user_query ++
          [.buildCall (answer_build a original_user_query)],
        .pair ⟨data_points a original_user_query, thoughts a original_user_query⟩
          (chat_coroutine a original_user_query)⟩

/-- `ChatReadRetrieveReadVisionApproach.run_until_final_call`, with the
source's positional signature. -/
def run_until_final_call (cfg : VisionApproachConfig) (co : Collaborators)
    (messages : List ChatMessage) (overrides : Overrides)
    (auth_claims : AuthClaims) (should_stream : Bool) : RunOutput :=
  run ⟨cfg, co, messages, overrides, auth_claims, should_stream⟩

end ChatReadRetrieveReadVisionApproach

/-! ### Trace and result characterization helpers -/

theorem text_run_calls (a : ChatReadRetrieveReadApproach.Args)
    (lastMessage : ChatMessage) (orig : String)
    (hlast : a.messages.getLast? = some lastMessage)
    (hstr : lastMessage.content = .text orig) :
    (ChatReadRetrieveReadApproach.run a).calls =
      ChatReadRetrieveReadApproach.calls_before a orig ++
        [.buildCall (if (ChatReadRetrieveReadApproach.sources_content a orig).isEmpty
          then ChatReadRetrieveReadApproach.answer_build_empty a orig
          else ChatReadRetrieveReadApproach.answer_build_grounded a orig)] := by
  simp only [ChatReadRetrieveReadApproach.run, hlast, hstr]
  split <;> rename_i h <;> simp [h]

theorem text_run_empty (a : ChatReadRetrieveReadApproach.Args)
    (lastMessage : ChatMessage) (orig : String)
    (hlast : a.messages.getLast? = some lastMessage)
    (hstr : lastMessage.content = .text orig)
    (he : (ChatReadRetrieveReadApproach.sources_content a orig).isEmpty = true) :
    ChatReadRetrieveReadApproach.run a =
      ⟨ChatReadRetrieveReadApproach.calls_before a orig ++
          [.buildCall (ChatReadRetrieveReadApproach.answer_build_empty a orig)],
        .dictReturn ⟨none, none⟩ []
          (ChatReadRetrieveReadApproach.chat_coroutine a
            (a.co.build_messages (ChatReadRetrieveReadApproach.answer_build_empty a orig)))⟩ := by
  simp only [ChatReadRetrieveReadApproach.run, hlast, hstr, he, if_true]

theorem text_run_grounded (a : ChatReadRetrieveReadApproach.Args)
    (lastMessage : ChatMessage) (orig : String)
    (hlast : a.messages.getLast? = some lastMessage)
    (hstr : lastMessage.content = .text orig)
    (hne : (ChatReadRetrieveReadApproach.sources_content a orig).isEmpty = false) :
    ChatReadRetrieveReadApproach.run a =
      ⟨ChatReadRetrieveReadApproach.calls_before a orig ++
          [.buildCall (ChatReadRetrieveReadApproach.answer_build_grounded a orig)],
        .pair
          ⟨⟨some (ChatReadRetrieveReadApproach.sources_content a orig), none⟩,
            ChatReadRetrieveReadApproach.thoughts a orig⟩
          (ChatReadRetrieveReadApproach.chat_coroutine a
            (a.co.build_messages (ChatReadRetrieveReadApproach.answer_build_grounded a orig)))⟩ := by
  simp only [ChatReadRetrieveReadApproach.run, hlast, hstr, hne, Bool.false_eq_true, if_false]

theorem vision_run_eq (a : ChatReadRetrieveReadVisionApproach.Args)
    (lastMessage : ChatMessage) (orig : String)
    (hlast : a.messages.getLast? = some lastMessage)
    (hstr : lastMessage.content = .text orig) :
    ChatReadRetrieveReadVisionApproach.run a =
      ⟨[.buildCall (ChatReadRetrieveReadVisionApproach.query_build a orig),
          .modelCall (ChatReadRetrieveReadVisionApproach.query_request a orig)] ++
          ChatReadRetrieveReadVisionApproach.embed_events a orig ++
          [.searchCall (ChatReadRetrieveReadVisionApproach.search_request a orig)] ++
          ChatReadRetrieveReadVisionApproach.fetch_events a orig ++
          [.buildCall (ChatReadRetrieveReadVisionApproach.answer_build a orig)],
        .pair
          ⟨ChatReadRetrieveReadVisionApproach.data_points a orig,
            ChatReadRetrieveReadVisionApproach.thoughts a orig⟩
          (ChatReadRetrieveReadVisionApproach.chat_coroutine a orig)⟩ := by
  simp only [ChatReadRetrieveReadVisionApproach.run, hlast, hstr]

theorem text_calls_before_eventSearch (a : ChatReadRetrieveReadApproach.Args) (orig : String) :
    (ChatReadRetrieveReadApproach.calls_before a orig).filterMap eventSearch =
      [ChatReadRetrieveReadApproach.search_request a orig] := by
  by_cases hv : ChatReadRetrieveReadApproach.use_vector_search a = true <;>
    simp [ChatReadRetrieveReadApproach.calls_before, hv, eventSearch]

theorem text_calls_before_eventBuild (a : ChatReadRetrieveReadApproach.Args) (orig : String) :
    (ChatReadRetrieveReadApproach.calls_before a orig).filterMap eventBuild =
      [ChatReadRetrieveReadApproach.query_build a orig] := by
  by_cases hv : ChatReadRetrieveReadApproach.use_vector_search a = true <;>
    simp [ChatReadRetrieveReadApproach.calls_before, hv, eventBuild]

theorem text_calls_before_eventModel (a : ChatReadRetrieveReadApproach.Args) (orig : String) :
    (ChatReadRetrieveReadApproach.calls_before a orig).filterMap eventModel =
      [ChatReadRetrieveReadApproach.query_request a orig] := by
  by_cases hv : ChatReadRetrieveReadApproach.use_vector_search a = true <;>
    simp [ChatReadRetrieveReadApproach.calls_before, hv, eventModel]

theorem text_calls_before_eventEmbedText (a : ChatReadRetrieveReadApproach.Args) (orig : String) :
    (ChatReadRetrieveReadApproach.calls_before a orig).filterMap eventEmbedText =
      (if ChatReadRetrieveReadApproach.use_vector_search a then
        [ChatReadRetrieveReadApproach.query_text a orig] else []) := by
  by_cases hv : ChatReadRetrieveReadApproach.use_vector_search a = true <;>
    simp [ChatReadRetrieveReadApproach.calls_before, hv, eventEmbedText]

theorem text_calls_before_eventEmbedImage (a : ChatReadRetrieveReadApproach.Args) (orig : String) :
    (ChatReadRetrieveReadApproach.calls_before a orig).filterMap eventEmbedImage = [] := by
  by_cases hv : ChatReadRetrieveReadApproach.use_vector_search a = true <;>
    simp [ChatReadRetrieveReadApproach.calls_before, hv, eventEmbedImage]

theorem text_calls_before_eventImageFetch (a : ChatReadRetrieveReadApproach.Args) (orig : String) :
    (ChatReadRetrieveReadApproach.calls_before a orig).filterMap eventImageFetch = [] := by
  by_cases hv : ChatReadRetrieveReadApproach.use_vector_search a = true <;>
    simp [ChatReadRetrieveReadApproach.calls_before, hv, eventImageFetch]

theorem vision_embed_events_eventSearch (a : ChatReadRetrieveReadVisionApproach.Args)
    (orig : String) :
    (ChatReadRetrieveReadVisionApproach.embed_events a orig).filterMap eventSearch = [] := by
  unfold ChatReadRetrieveReadVisionApproach.embed_events
  split
  · rw [List.filterMap_map]
    refine List.filterMap_eq_nil_iff.mpr fun field _ => ?_
    by_cases hf : (field == "embedding") = true <;> simp [hf, Function.comp, eventSearch]
  · rfl

theorem vision_embed_events_eventBuild (a : ChatReadRetrieveReadVisionApproach.Args)
    (orig : String) :
    (ChatReadRetrieveReadVisionApproach.embed_events a orig).filterMap eventBuild = [] := by
  unfold ChatReadRetrieveReadVisionApproach.embed_events
  split
  · rw [List.filterMap_map]
    refine List.filterMap_eq_nil_iff.mpr fun field _ => ?_
    by_cases hf : (field == "embedding") = true <;> simp [hf, Function.comp, eventBuild]
  · rfl

theorem vision_embed_events_eventModel (a : ChatReadRetrieveReadVisionApproach.Args)
    (orig : String) :
    (ChatReadRetrieveReadVisionApproach.embed_events a orig).filterMap eventModel = [] := by
  unfold ChatReadRetrieveReadVisionApproach.embed_events
  split
  · rw [List.filterMap_map]
    refine List.filterMap_eq_nil_iff.mpr fun field _ => ?_
    by_cases hf : (field == "embedding") = true <;> simp [hf, Function.comp, eventModel]
  · rfl

theorem vision_embed_events_eventImageFetch (a : ChatReadRetrieveReadVisionApproach.Args)
    (orig : String) :
    (ChatReadRetrieveReadVisionApproach.embed_events a orig).filterMap eventImageFetch = [] := by
  unfold ChatReadRetrieveReadVisionApproach.embed_events
  split
  · rw [List.filterMap_map]
    refine List.filterMap_eq_nil_iff.mpr fun field _ => ?_
    by_cases hf : (field == "embedding") = true <;> simp [hf, Function.comp, eventImageFetch]
  · rfl

theorem vision_fetch_events_eventSearch (a : ChatReadRetrieveReadVisionApproach.Args)
    (orig : String) :
    (ChatReadRetrieveReadVisionApproach.fetch_events a orig).filterMap eventSearch = [] := by
  unfold ChatReadRetrieveReadVisionApproach.fetch_events
  split
  · rw [List.filterMap_map]
    exact List.filterMap_eq_nil_iff.mpr fun r _ => rfl
  · rfl

theorem vision_fetch_events_eventBuild (a : ChatReadRetrieveReadVisionApproach.Args)
    (orig : String) :
    (ChatReadRetrieveReadVisionApproach.fetch_events a orig).filterMap eventBuild = [] := by
  unfold ChatReadRetrieveReadVisionApproach.fetch_events
  split
  · rw [List.filterMap_map]
    exact List.filterMap_eq_nil_iff.mpr fun r _ => rfl
  · rfl

theorem vision_fetch_events_eventModel (a : ChatReadRetrieveReadVisionApproach.Args)
    (orig : String) :
    (ChatReadRetrieveReadVisionApproach.fetch_events a orig).filterMap eventModel = [] := by
  unfold ChatReadRetrieveReadVisionApproach.fetch_events
  split
  · rw [List.filterMap_map]
    exact List.filterMap_eq_nil_iff.mpr fun r _ => rfl
  · rfl

theorem vision_fetch_events_eventEmbedText (a : ChatReadRetrieveReadVisionApproach.Args)
    (orig : String) :
    (ChatReadRetrieveReadVisionApproach.fetch_events a orig).filterMap eventEmbedText = [] := by
  unfold ChatReadRetrieveReadVisionApproach.fetch_events
  split
  · rw [List.filterMap_map]
    exact List.filterMap_eq_nil_iff.mpr fun r _ => rfl
  · rfl

theorem vision_fetch_events_eventEmbedImage (a : ChatReadRetrieveReadVisionApproach.Args)
    (orig : String) :
    (ChatReadRetrieveReadVisionApproach.fetch_events a orig).filterMap eventEmbedImage = [] := by
  unfold ChatReadRetrieveReadVisionApproach.fetch_events
  split
  · rw [List.filterMap_map]
    exact List.filterMap_eq_nil_iff.mpr fun r _ => rfl
  · rfl

theorem vision_fetch_events_eventImageFetch (a : ChatReadRetrieveReadVisionApproach.Args)
    (orig : String) :
    (ChatReadRetrieveReadVisionApproach.fetch_events a orig).filterMap eventImageFetch =
      (if ChatReadRetrieveReadVisionApproach.send_images_to_gptvision a then
        ChatReadRetrieveReadVisionApproach.results a orig else []) := by
  unfold ChatReadRetrieveReadVisionApproach.fetch_events
  split <;> rename_i h <;> simp [h]
  rw [show eventImageFetch ∘ Event.imageFetch = some from rfl]
  exact List.filterMap_some _

/-! ### Concrete fixtures used by witnesses and counterexamples -/

/-- A concrete retrieved document with a resolvable image reference. -/
def exResult : SearchResult :=
  { citation_key := "policy.pdf#p3"
    content := "Returns accepted within 30 days."
    caption := none
    image_reference := some "https://img/policy.png" }

/-- A concrete retrieved document whose image reference does not resolve. -/
def exResultNoImage : SearchResult :=
  { citation_key := "guide.pdf#p1"
    content := "Guide."
    caption := none
    image_reference := none }

/-- Concrete collaborator oracles whose search call returns the given list. -/
def exCollab (rs : List SearchResult) : Collaborators :=
  { build_filter := fun _ _ => none
    build_messages := fun r => r.past_messages ++ [⟨"user", r.new_user_content⟩]
    create_chat_completion := fun _ => ⟨"return policy"⟩
    get_search_query := fun c _ => c.payload
    compute_text_embedding := fun s => ⟨[s.length]⟩
    compute_image_embedding := fun s => ⟨[s.length + 1]⟩
    search := fun _ => rs
    fetch_image := fun r => r.image_reference
    get_system_prompt := fun _ _ => "SYSTEM"
    serialize_for_results := fun r => r.citation_key
    query_prompt_template := "QPT"
    query_prompt_few_shots := []
    follow_up_questions_prompt_content := "FUP" }

def exLast : ChatMessage := ⟨"user", .text "What is the return policy?"⟩

def exMessages : List ChatMessage := [exLast]

def exBadLast : ChatMessage := ⟨"user", .parts [.textPart "What is the return policy?"]⟩

def exBadMessages : List ChatMessage := [exBadLast]

def exOverrides : Overrides :=
  { seed := none
    retrieval_mode := some "text"
    semantic_ranker := false
    semantic_captions := false
    top := none
    minimum_search_score := none
    minimum_reranker_score := none
    temperature := none
    prompt_template := none
    suggest_followup_questions := false
    vector_fields := none
    gpt4v_input := none }

def exTextCfg : TextApproachConfig :=
  { chatgpt_model := "gpt-35-turbo"
    chatgpt_deployment := none
    chatgpt_token_limit := 4000
    allow_non_gpt_models := false }

def exVisionCfg : VisionApproachConfig :=
  { chatgpt_model := "gpt-35-turbo"
    chatgpt_deployment := none
    gpt4v_model := "gpt-4v"
    gpt4v_deployment := none
    chatgpt_token_limit := 8000
    allow_non_gpt_models := false }

/-! ### Claims -/

/-- C3: in both variants, `run_until_final_call` fails with the fatal input
error exactly when the content of the last input message is not a plain
string, and on that error path no external collaborator call (model,
embedding, search, image fetch — nor even the prompt builder) has been
made. -/
theorem c3_input_error_iff_last_content_not_string
    (cfg : TextApproachConfig) (vcfg : VisionApproachConfig) (co : Collaborators)
    (messages : List ChatMessage) (overrides : Overrides)
    (auth_claims : AuthClaims) (should_stream : Bool) (lastMessage : ChatMessage)
    (hlast : messages.getLast? = some lastMessage) :
    ((ChatReadRetrieveReadApproach.run_until_final_call cfg co messages overrides
        auth_claims should_stream).result.isInputError = true ↔
      lastMessage.content.isString = false) ∧
    ((ChatReadRetrieveReadVisionApproach.run_until_final_call vcfg co messages overrides
        auth_claims should_stream).result.isInputError = true ↔
      lastMessage.content.isString = false) ∧
    (lastMessage.content.isString = false →
      (ChatReadRetrieveReadApproach.run_until_final_call cfg co messages overrides
        auth_claims should_stream).calls = [] ∧
      (ChatReadRetrieveReadVisionApproach.run_until_final_call vcfg co messages overrides
        auth_claims should_stream).calls = []) := by
  cases hc : lastMessage.content with
  | parts ps =>
    refine ⟨?_, ?_, ?_⟩ <;>
      simp [ChatReadRetrieveReadApproach.run_until_final_call,
        ChatReadRetrieveReadApproach.run,
        ChatReadRetrieveReadVisionApproach.run_until_final_call,
        ChatReadRetrieveReadVisionApproach.run, hlast, hc,
        RunResult.isInputError, MessageContent.isString]
  | text s =>
    refine ⟨?_, ?_, ?_⟩
    · simp only [ChatReadRetrieveReadApproach.run_until_final_call,
        ChatReadRetrieveReadApproach.run, hlast, hc]
      split <;> simp [RunResult.isInputError, MessageContent.isString]
    · simp [ChatReadRetrieveReadVisionApproach.run_until_final_call,
        ChatReadRetrieveReadVisionApproach.run, hlast, hc,
        RunResult.isInputError, MessageContent.isString]
    · simp [hc, MessageContent.isString]

theorem c3_witness :
    exBadMessages.getLast? = some exBadLast ∧
    (((ChatReadRetrieveReadApproach.run_until_final_call exTextCfg (exCollab [])
        exBadMessages exOverrides [] false).result.isInputError = true ↔
      exBadLast.content.isString = false) ∧
    ((ChatReadRetrieveReadVisionApproach.run_until_final_call exVisionCfg (exCollab [])
        exBadMessages exOverrides [] false).result.isInputError = true ↔
      exBadLast.content.isString = false) ∧
    (exBadLast.content.isString = false →
      (ChatReadRetrieveReadApproach.run_until_final_call exTextCfg (exCollab [])
        exBadMessages exOverrides [] false).calls = [] ∧
      (ChatReadRetrieveReadVisionApproach.run_until_final_call exVisionCfg (exCollab [])
        exBadMessages exOverrides [] false).calls = [])) :=
  ⟨rfl, c3_input_error_iff_last_content_not_string exTextCfg exVisionCfg (exCollab [])
    exBadMessages exOverrides [] false exBadLast rfl⟩

/-- C9: `run_until_final_call` is deterministic: two runs of either variant
with identical messages, overrides, auth claims, streaming flag and identical
collaborator responses produce identical data_points and identical thought
traces. -/
theorem c9_deterministic
    (cfg : TextApproachConfig) (vcfg : VisionApproachConfig)
    (co co2 : Collaborators) (m m2 : List ChatMessage) (o o2 : Overrides)
    (a a2 : AuthClaims) (s s2 : Bool)
    (hco : co = co2) (hm : m = m2) (ho : o = o2) (ha : a = a2) (hs : s = s2) :
    resultDataPoints (ChatReadRetrieveReadApproach.run_until_final_call cfg co m o a s).result =
      resultDataPoints (ChatReadRetrieveReadApproach.run_until_final_call cfg co2 m2 o2 a2 s2).result ∧
    resultThoughts (ChatReadRetrieveReadApproach.run_until_final_call cfg co m o a s).result =
      resultThoughts (ChatReadRetrieveReadApproach.run_until_final_call cfg co2 m2 o2 a2 s2).result ∧
    resultDataPoints (ChatReadRetrieveReadVisionApproach.run_until_final_call vcfg co m o a s).result =
      resultDataPoints (ChatReadRetrieveReadVisionApproach.run_until_final_call vcfg co2 m2 o2 a2 s2).result ∧
    resultThoughts (ChatReadRetrieveReadVisionApproach.run_until_final_call vcfg co m o a s).result =
      resultThoughts (ChatReadRetrieveReadVisionApproach.run_until_final_call vcfg co2 m2 o2 a2 s2).result := by
  subst hco; subst hm; subst ho; subst ha; subst hs
  exact ⟨rfl, rfl, rfl, rfl⟩

theorem c9_witness :
    exCollab [exResult] = exCollab [exResult] ∧
    resultDataPoints (ChatReadRetrieveReadApproach.run_until_final_call exTextCfg
        (exCollab [exResult]) exMessages exOverrides [] false).result =
      resultDataPoints (ChatReadRetrieveReadApproach.run_until_final_call exTextCfg
        (exCollab [exResult]) exMessages exOverrides [] false).result ∧
    resultThoughts (ChatReadRetrieveReadVisionApproach.run_until_final_call exVisionCfg
        (exCollab [exResult]) exMessages exOverrides [] false).result =
      resultThoughts (ChatReadRetrieveReadVisionApproach.run_until_final_call exVisionCfg
        (exCollab [exResult]) exMessages exOverrides [] false).result :=
  ⟨rfl,
    (c9_deterministic exTextCfg exVisionCfg (exCollab [exResult]) (exCollab [exResult])
      exMessages exMessages exOverrides exOverrides [] [] false false
      rfl rfl rfl rfl rfl).1,
    (c9_deterministic exTextCfg exVisionCfg (exCollab [exResult]) (exCollab [exResult])
      exMessages exMessages exOverrides exOverrides [] [] false false
      rfl rfl rfl rfl rfl).2.2.2⟩

/-- C1 (counterexample): contrary to the claim, the vision variant has no
no-sources short-circuit.  At a concrete request for which the search
collaborator returns zero results, its `run_until_final_call` still returns a
4-step thought trace and a data_points dictionary with both a "text" and an
"images" key (here both empty lists), not the empty dictionary. -/
theorem c1_counterexample_vision_has_no_short_circuit :
    (resultThoughts (ChatReadRetrieveReadVisionApproach.run_until_final_call exVisionCfg
      (exCollab []) exMessages exOverrides [] false).result).map List.length = some 4 ∧
    resultDataPoints (ChatReadRetrieveReadVisionApproach.run_until_final_call exVisionCfg
      (exCollab []) exMessages exOverrides [] false).result = some ⟨some [], some []⟩ :=
  ⟨rfl, rfl⟩

/-- C1 (amended): only the text variant short-circuits when the search
collaborator returns zero results.  There, `run_until_final_call` returns
data_points == \x7b\x7d and thoughts == [], and the final prompt is built from
the system prompt, the history, and the raw original user question with no
sources text appended. -/
theorem c1_amended_text_no_sources_path
    (cfg : TextApproachConfig) (co : Collaborators)
    (messages : List ChatMessage) (overrides : Overrides)
    (auth_claims : AuthClaims) (should_stream : Bool)
    (lastMessage : ChatMessage) (orig : String)
    (hlast : messages.getLast? = some lastMessage)
    (hstr : lastMessage.content = .text orig)
    (hsearch : ∀ r, co.search r = []) :
    (∃ chat, (ChatReadRetrieveReadApproach.run_until_final_call cfg co messages overrides
        auth_claims should_stream).result = .dictReturn ⟨none, none⟩ [] chat) ∧
    (buildCalls (ChatReadRetrieveReadApproach.run_until_final_call cfg co messages
        overrides auth_claims should_stream)).length = 2 ∧
    ((buildCalls (ChatReadRetrieveReadApproach.run_until_final_call cfg co messages
        overrides auth_claims should_stream)).getLast?.map BuildRequest.new_user_content =
      some (.text orig)) ∧
    ((buildCalls (ChatReadRetrieveReadApproach.run_until_final_call cfg co messages
        overrides auth_claims should_stream)).getLast?.map BuildRequest.past_messages =
      some messages.dropLast) ∧
    ((buildCalls (ChatReadRetrieveReadApproach.run_until_final_call cfg co messages
        overrides auth_claims should_stream)).getLast?.map BuildRequest.system_prompt =
      some (co.get_system_prompt overrides.prompt_template
        (if overrides.suggest_followup_questions then co.follow_up_questions_prompt_content
         else ""))) := by
  have he : (ChatReadRetrieveReadApproach.sources_content
      ⟨cfg, co, messages, overrides, auth_claims, should_stream⟩ orig).isEmpty = true := by
    simp [ChatReadRetrieveReadApproach.sources_content, ChatReadRetrieveReadApproach.results,
      hsearch, get_sources_content]
  rw [show ChatReadRetrieveReadApproach.run_until_final_call cfg co messages overrides
        auth_claims should_stream =
      ChatReadRetrieveReadApproach.run
        ⟨cfg, co, messages, overrides, auth_claims, should_stream⟩ from rfl,
    text_run_empty ⟨cfg, co, messages, overrides, auth_claims, should_stream⟩
      lastMessage orig hlast hstr he]
  refine ⟨⟨_, rfl⟩, ?_, ?_, ?_, ?_⟩ <;>
    simp [buildCalls, text_calls_before_eventBuild, eventBuild,
      ChatReadRetrieveReadApproach.answer_build_empty,
      ChatReadRetrieveReadApproach.system_message]

theorem c1_witness :
    exMessages.getLast? = some exLast ∧
    exLast.content = .text "What is the return policy?" ∧
    (∀ r, (exCollab []).search r = []) ∧
    ((∃ chat, (ChatReadRetrieveReadApproach.run_until_final_call exTextCfg (exCollab [])
        exMessages exOverrides [] false).result = .dictReturn ⟨none, none⟩ [] chat) ∧
    (buildCalls (ChatReadRetrieveReadApproach.run_until_final_call exTextCfg (exCollab [])
        exMessages exOverrides [] false)).length = 2 ∧
    ((buildCalls (ChatReadRetrieveReadApproach.run_until_final_call exTextCfg (exCollab [])
        exMessages exOverrides [] false)).getLast?.map BuildRequest.new_user_content =
      some (.text "What is the return policy?")) ∧
    ((buildCalls (ChatReadRetrieveReadApproach.run_until_final_call exTextCfg (exCollab [])
        exMessages exOverrides [] false)).getLast?.map BuildRequest.past_messages =
      some exMessages.dropLast) ∧
    ((buildCalls (ChatReadRetrieveReadApproach.run_until_final_call exTextCfg (exCollab [])
        exMessages exOverrides [] false)).getLast?.map BuildRequest.system_prompt =
      some ((exCollab []).get_system_prompt exOverrides.prompt_template
        (if exOverrides.suggest_followup_questions then
          (exCollab []).follow_up_questions_prompt_content else "")))) :=
  ⟨rfl, rfl, fun _ => rfl,
    c1_amended_text_no_sources_path exTextCfg (exCollab []) exMessages exOverrides [] false
      exLast "What is the return policy?" rfl rfl (fun _ => rfl)⟩

/-- C2: at the failing input — the text variant with a search collaborator
returning zero results — `run_until_final_call` returns the single
3-key dictionary (data_points, thoughts, chat_coroutine) instead of the
`(metadata, coroutine)` pair that its own type annotation declares on every
path; on the grounded path it does return the pair. -/
theorem c2_text_no_sources_path_returns_dict_not_pair :
    (∃ chat, (ChatReadRetrieveReadApproach.run_until_final_call exTextCfg (exCollab [])
        exMessages exOverrides [] false).result = .dictReturn ⟨none, none⟩ [] chat) ∧
    (ChatReadRetrieveReadApproach.run_until_final_call exTextCfg (exCollab [])
        exMessages exOverrides [] false).result.isPair = false ∧
    (∃ info chat, (ChatReadRetrieveReadApproach.run_until_final_call exTextCfg
        (exCollab [exResult]) exMessages exOverrides [] false).result = .pair info chat) :=
  ⟨⟨_, rfl⟩, rfl, ⟨_, _, rfl⟩⟩

/-- C5: in both variants, the search call's text-matching flag is on exactly
when retrieval_mode is "text", "hybrid" or absent, and its vector-matching
flag is on exactly when retrieval_mode is "vectors", "hybrid" or absent; in
the text variant exactly one query embedding is computed when and only when
vector search is active, and that embedding is what is passed to the search
call. -/
theorem c5_retrieval_mode_controls_search_flags
    (cfg : TextApproachConfig) (vcfg : VisionApproachConfig) (co : Collaborators)
    (messages : List ChatMessage) (overrides : Overrides)
    (auth_claims : AuthClaims) (should_stream : Bool)
    (lastMessage : ChatMessage) (orig : String)
    (hlast : messages.getLast? = some lastMessage)
    (hstr : lastMessage.content = .text orig) :
    ∃ sr vr,
      searchCalls (ChatReadRetrieveReadApproach.run_until_final_call cfg co messages
        overrides auth_claims should_stream) = [sr] ∧
      searchCalls (ChatReadRetrieveReadVisionApproach.run_until_final_call vcfg co messages
        overrides auth_claims should_stream) = [vr] ∧
      (sr.use_text_search = true ↔ (overrides.retrieval_mode = some "text" ∨
        overrides.retrieval_mode = some "hybrid" ∨ overrides.retrieval_mode = none)) ∧
      (sr.use_vector_search = true ↔ (overrides.retrieval_mode = some "vectors" ∨
        overrides.retrieval_mode = some "hybrid" ∨ overrides.retrieval_mode = none)) ∧
      vr.use_text_search = sr.use_text_search ∧
      vr.use_vector_search = sr.use_vector_search ∧
      embedTextCalls (ChatReadRetrieveReadApproach.run_until_final_call cfg co messages
        overrides auth_claims should_stream) =
        (if sr.use_vector_search then [sr.query_text] else []) ∧
      sr.vectors =
        (if sr.use_vector_search then [co.compute_text_embedding sr.query_text] else []) := by
  rw [show ChatReadRetrieveReadApproach.run_until_final_call cfg co messages overrides
        auth_claims should_stream =
      ChatReadRetrieveReadApproach.run
        ⟨cfg, co, messages, overrides, auth_claims, should_stream⟩ from rfl,
    show ChatReadRetrieveReadVisionApproach.run_until_final_call vcfg co messages overrides
        auth_claims should_stream =
      ChatReadRetrieveReadVisionApproach.run
        ⟨vcfg, co, messages, overrides, auth_claims, should_stream⟩ from rfl]
  refine ⟨ChatReadRetrieveReadApproach.search_request
      ⟨cfg, co, messages, overrides, auth_claims, should_stream⟩ orig,
    ChatReadRetrieveReadVisionApproach.search_request
      ⟨vcfg, co, messages, overrides, auth_claims, should_stream⟩ orig,
    ?_, ?_, ?_, ?_, rfl, rfl, ?_, ?_⟩
  · simp [searchCalls,
      text_run_calls ⟨cfg, co, messages, overrides, auth_claims, should_stream⟩
        lastMessage orig hlast hstr,
      text_calls_before_eventSearch, eventSearch]
  · simp [searchCalls,
      vision_run_eq ⟨vcfg, co, messages, overrides, auth_claims, should_stream⟩
        lastMessage orig hlast hstr,
      vision_embed_events_eventSearch, vision_fetch_events_eventSearch, eventSearch]
  · simp [ChatReadRetrieveReadApproach.search_request,
      ChatReadRetrieveReadApproach.use_text_search, Bool.or_eq_true, beq_iff_eq, or_assoc]
  · simp [ChatReadRetrieveReadApproach.search_request,
      ChatReadRetrieveReadApproach.use_vector_search, Bool.or_eq_true, beq_iff_eq, or_assoc]
  · simp [embedTextCalls,
      text_run_calls ⟨cfg, co, messages, overrides, auth_claims, should_stream⟩
        lastMessage orig hlast hstr,
      text_calls_before_eventEmbedText, eventEmbedText,
      ChatReadRetrieveReadApproach.search_request]
  · simp [ChatReadRetrieveReadApproach.search_request, ChatReadRetrieveReadApproach.vectors]

theorem c5_witness :
    exMessages.getLast? = some exLast ∧
    exLast.content = .text "What is the return policy?" ∧
    (∃ sr vr,
      searchCalls (ChatReadRetrieveReadApproach.run_until_final_call exTextCfg
        (exCollab [exResult]) exMessages exOverrides [] false) = [sr] ∧
      searchCalls (ChatReadRetrieveReadVisionApproach.run_until_final_call exVisionCfg
        (exCollab [exResult]) exMessages exOverrides [] false) = [vr] ∧
      (sr.use_text_search = true ↔ (exOverrides.retrieval_mode = some "text" ∨
        exOverrides.retrieval_mode = some "hybrid" ∨ exOverrides.retrieval_mode = none)) ∧
      (sr.use_vector_search = true ↔ (exOverrides.retrieval_mode = some "vectors" ∨
        exOverrides.retrieval_mode = some "hybrid" ∨ exOverrides.retrieval_mode = none)) ∧
      vr.use_text_search = sr.use_text_search ∧
      vr.use_vector_search = sr.use_vector_search ∧
      embedTextCalls (ChatReadRetrieveReadApproach.run_until_final_call exTextCfg
        (exCollab [exResult]) exMessages exOverrides [] false) =
        (if sr.use_vector_search then [sr.query_text] else []) ∧
      sr.vectors =
        (if sr.use_vector_search then
          [(exCollab [exResult]).compute_text_embedding sr.query_text] else [])) :=
  ⟨rfl, rfl, c5_retrieval_mode_controls_search_flags exTextCfg exVisionCfg
    (exCollab [exResult]) exMessages exOverrides [] false exLast
    "What is the return policy?" rfl rfl⟩

/-- C4: on the grounded path both variants return exactly 4 ThoughtSteps, in
the fixed order query-generation prompt, search invocation (whose content is
exactly the query text passed to the search collaborator), search-result
listing (the serialized retrieved results in retrieval order), and
answer-generation prompt. -/
theorem c4_grounded_thought_steps
    (cfg : TextApproachConfig) (vcfg : VisionApproachConfig) (co : Collaborators)
    (messages : List ChatMessage) (overrides : Overrides)
    (auth_claims : AuthClaims) (should_stream : Bool)
    (lastMessage : ChatMessage) (orig : String)
    (info vinfo : ExtraInfo) (chat vchat : ChatCall)
    (hlast : messages.getLast? = some lastMessage)
    (hstr : lastMessage.content = .text orig)
    (htext : (ChatReadRetrieveReadApproach.run_until_final_call cfg co messages overrides
        auth_claims should_stream).result = .pair info chat)
    (hvis : (ChatReadRetrieveReadVisionApproach.run_until_final_call vcfg co messages
        overrides auth_claims should_stream).result = .pair vinfo vchat) :
    ∃ sr qb ab vr vqb vab,
      searchCalls (ChatReadRetrieveReadApproach.run_until_final_call cfg co messages
        overrides auth_claims should_stream) = [sr] ∧
      buildCalls (ChatReadRetrieveReadApproach.run_until_final_call cfg co messages
        overrides auth_claims should_stream) = [qb, ab] ∧
      searchCalls (ChatReadRetrieveReadVisionApproach.run_until_final_call vcfg co messages
        overrides auth_claims should_stream) = [vr] ∧
      buildCalls (ChatReadRetrieveReadVisionApproach.run_until_final_call vcfg co messages
        overrides auth_claims should_stream) = [vqb, vab] ∧
      info.thoughts.map ThoughtStep.title =
        ["Prompt to generate search query", "Search using generated search query",
         "Search results", "Prompt to generate answer"] ∧
      info.thoughts.map ThoughtStep.content =
        [.msgs (co.build_messages qb), .query sr.query_text,
         .results ((co.search sr).map co.serialize_for_results),
         .msgs (co.build_messages ab)] ∧
      vinfo.thoughts.map ThoughtStep.title =
        ["Prompt to generate search query", "Search using generated search query",
         "Search results", "Prompt to generate answer"] ∧
      vinfo.thoughts.map ThoughtStep.content =
        [.msgs (co.build_messages vqb), .query vr.query_text,
         .results ((co.search vr).map co.serialize_for_results),
         .msgs (co.build_messages vab)] := by
  rw [show ChatReadRetrieveReadApproach.run_until_final_call cfg co messages overrides
        auth_claims should_stream =
      ChatReadRetrieveReadApproach.run
        ⟨cfg, co, messages, overrides, auth_claims, should_stream⟩ from rfl] at htext ⊢
  rw [show ChatReadRetrieveReadVisionApproach.run_until_final_call vcfg co messages overrides
        auth_claims should_stream =
      ChatReadRetrieveReadVisionApproach.run
        ⟨vcfg, co, messages, overrides, auth_claims, should_stream⟩ from rfl] at hvis ⊢
  by_cases he : (ChatReadRetrieveReadApproach.sources_content
      ⟨cfg, co, messages, overrides, auth_claims, should_stream⟩ orig).isEmpty = true
  · rw [text_run_empty _ lastMessage orig hlast hstr he] at htext
    simp at htext
  · have hne : (ChatReadRetrieveReadApproach.sources_content
        ⟨cfg, co, messages, overrides, auth_claims, should_stream⟩ orig).isEmpty = false := by
      simpa using he
    rw [text_run_grounded _ lastMessage orig hlast hstr hne] at htext ⊢
    rw [vision_run_eq _ lastMessage orig hlast hstr] at hvis ⊢
    simp only [RunResult.pair.injEq] at htext hvis
    obtain ⟨hinfo, hchat⟩ := htext
    obtain ⟨hvinfo, hvchat⟩ := hvis
    subst hinfo
    subst hvinfo
    refine ⟨ChatReadRetrieveReadApproach.search_request
        ⟨cfg, co, messages, overrides, auth_claims, should_stream⟩ orig,
      ChatReadRetrieveReadApproach.query_build
        ⟨cfg, co, messages, overrides, auth_claims, should_stream⟩ orig,
      ChatReadRetrieveReadApproach.answer_build_grounded
        ⟨cfg, co, messages, overrides, auth_claims, should_stream⟩ orig,
      ChatReadRetrieveReadVisionApproach.search_request
        ⟨vcfg, co, messages, overrides, auth_claims, should_stream⟩ orig,
      ChatReadRetrieveReadVisionApproach.query_build
        ⟨vcfg, co, messages, overrides, auth_claims, should_stream⟩ orig,
      ChatReadRetrieveReadVisionApproach.answer_build
        ⟨vcfg, co, messages, overrides, auth_claims, should_stream⟩ orig,
      ?_, ?_, ?_, ?_, ?_, ?_, ?_, ?_⟩
    · simp [searchCalls, text_calls_before_eventSearch, eventSearch]
    · simp [buildCalls, text_calls_before_eventBuild, eventBuild]
    · simp [searchCalls, vision_embed_events_eventSearch, vision_fetch_events_eventSearch,
        eventSearch]
    · simp [buildCalls, vision_embed_events_eventBuild, vision_fetch_events_eventBuild,
        eventBuild]
    · simp [ChatReadRetrieveReadApproach.thoughts]
    · simp [ChatReadRetrieveReadApproach.thoughts,
        ChatReadRetrieveReadApproach.query_messages, ChatReadRetrieveReadApproach.results,
        ChatReadRetrieveReadApproach.search_request, ChatReadRetrieveReadApproach.query_text]
    · simp [ChatReadRetrieveReadVisionApproach.thoughts]
    · simp [ChatReadRetrieveReadVisionApproach.thoughts,
        ChatReadRetrieveReadVisionApproach.query_messages,
        ChatReadRetrieveReadVisionApproach.results,
        ChatReadRetrieveReadVisionApproach.search_request,
        ChatReadRetrieveReadVisionApproach.query_text]

theorem c4_witness :
    ∃ info chat vinfo vchat,
      (ChatReadRetrieveReadApproach.run_until_final_call exTextCfg (exCollab [exResult])
        exMessages exOverrides [] false).result = RunResult.pair info chat ∧
      (ChatReadRetrieveReadVisionApproach.run_until_final_call exVisionCfg
        (exCollab [exResult]) exMessages exOverrides [] false).result =
        RunResult.pair vinfo vchat ∧
      (∃ sr qb ab vr vqb vab,
        searchCalls (ChatReadRetrieveReadApproach.run_until_final_call exTextCfg
          (exCollab [exResult]) exMessages exOverrides [] false) = [sr] ∧
        buildCalls (ChatReadRetrieveReadApproach.run_until_final_call exTextCfg
          (exCollab [exResult]) exMessages exOverrides [] false) = [qb, ab] ∧
        searchCalls (ChatReadRetrieveReadVisionApproach.run_until_final_call exVisionCfg
          (exCollab [exResult]) exMessages exOverrides [] false) = [vr] ∧
        buildCalls (ChatReadRetrieveReadVisionApproach.run_until_final_call exVisionCfg
          (exCollab [exResult]) exMessages exOverrides [] false) = [vqb, vab] ∧
        info.thoughts.map ThoughtStep.title =
          ["Prompt to generate search query", "Search using generated search query",
           "Search results", "Prompt to generate answer"] ∧
        info.thoughts.map ThoughtStep.content =
          [.msgs ((exCollab [exResult]).build_messages qb), .query sr.query_text,
           .results (((exCollab [exResult]).search sr).map
             (exCollab [exResult]).serialize_for_results),
           .msgs ((exCollab [exResult]).build_messages ab)] ∧
        vinfo.thoughts.map ThoughtStep.title =
          ["Prompt to generate search query", "Search using generated search query",
           "Search results", "Prompt to generate answer"] ∧
        vinfo.thoughts.map ThoughtStep.content =
          [.msgs ((exCollab [exResult]).build_messages vqb), .query vr.query_text,
           .results (((exCollab [exResult]).search vr).map
             (exCollab [exResult]).serialize_for_results),
           .msgs ((exCollab [exResult]).build_messages vab)]) :=
  ⟨_, _, _, _, rfl, rfl,
    c4_grounded_thought_steps exTextCfg exVisionCfg (exCollab [exResult]) exMessages
      exOverrides [] false exLast "What is the return policy?" _ _ _ _ rfl rfl rfl rfl⟩

/-- C6: in both variants the query-rewriting model call uses temperature 0.0,
max output tokens 100 and n=1 — regardless of any caller-supplied temperature
override — and the query prompt is built with a budget of
(model token limit − 100) tokens. -/
theorem c6_query_call_parameters
    (cfg : TextApproachConfig) (vcfg : VisionApproachConfig) (co : Collaborators)
    (messages : List ChatMessage) (overrides : Overrides)
    (auth_claims : AuthClaims) (should_stream : Bool)
    (lastMessage : ChatMessage) (orig : String)
    (hlast : messages.getLast? = some lastMessage)
    (hstr : lastMessage.content = .text orig) :
    ∃ q vq,
      modelCalls (ChatReadRetrieveReadApproach.run_until_final_call cfg co messages
        overrides auth_claims should_stream) = [q] ∧
      modelCalls (ChatReadRetrieveReadVisionApproach.run_until_final_call vcfg co messages
        overrides auth_claims should_stream) = [vq] ∧
      q.temperature = 0 ∧ q.max_tokens = 100 ∧ q.n = 1 ∧
      vq.temperature = 0 ∧ vq.max_tokens = 100 ∧ vq.n = 1 ∧
      ((buildCalls (ChatReadRetrieveReadApproach.run_until_final_call cfg co messages
        overrides auth_claims should_stream)).head?.map BuildRequest.max_tokens =
        some ((cfg.chatgpt_token_limit : Int) - 100)) ∧
      ((buildCalls (ChatReadRetrieveReadVisionApproach.run_until_final_call vcfg co messages
        overrides auth_claims should_stream)).head?.map BuildRequest.max_tokens =
        some ((vcfg.chatgpt_token_limit : Int) - 100)) := by
  rw [show ChatReadRetrieveReadApproach.run_until_final_call cfg co messages overrides
        auth_claims should_stream =
      ChatReadRetrieveReadApproach.run
        ⟨cfg, co, messages, overrides, auth_claims, should_stream⟩ from rfl,
    show ChatReadRetrieveReadVisionApproach.run_until_final_call vcfg co messages overrides
        auth_claims should_stream =
      ChatReadRetrieveReadVisionApproach.run
        ⟨vcfg, co, messages, overrides, auth_claims, should_stream⟩ from rfl]
  refine ⟨ChatReadRetrieveReadApproach.query_request
      ⟨cfg, co, messages, overrides, auth_claims, should_stream⟩ orig,
    ChatReadRetrieveReadVisionApproach.query_request
      ⟨vcfg, co, messages, overrides, auth_claims, should_stream⟩ orig,
    ?_, ?_, rfl, rfl, rfl, rfl, rfl, rfl, ?_, ?_⟩
  · simp [modelCalls,
      text_run_calls ⟨cfg, co, messages, overrides, auth_claims, should_stream⟩
        lastMessage orig hlast hstr,
      text_calls_before_eventModel, eventModel]
  · simp [modelCalls,
      vision_run_eq ⟨vcfg, co, messages, overrides, auth_claims, should_stream⟩
        lastMessage orig hlast hstr,
      vision_embed_events_eventModel, vision_fetch_events_eventModel, eventModel]
  · simp [buildCalls,
      text_run_calls ⟨cfg, co, messages, overrides, auth_claims, should_stream⟩
        lastMessage orig hlast hstr,
      text_calls_before_eventBuild, eventBuild, ChatReadRetrieveReadApproach.query_build]
  · simp [buildCalls,
      vision_run_eq ⟨vcfg, co, messages, overrides, auth_claims, should_stream⟩
        lastMessage orig hlast hstr,
      vision_embed_events_eventBuild, vision_fetch_events_eventBuild, eventBuild,
      ChatReadRetrieveReadVisionApproach.query_build]

theorem c6_witness :
    exMessages.getLast? = some exLast ∧
    exLast.content = .text "What is the return policy?" ∧
    (∃ q vq,
      modelCalls (ChatReadRetrieveReadApproach.run_until_final_call exTextCfg
        (exCollab [exResult]) exMessages exOverrides [] false) = [q] ∧
      modelCalls (ChatReadRetrieveReadVisionApproach.run_until_final_call exVisionCfg
        (exCollab [exResult]) exMessages exOverrides [] false) = [vq] ∧
      q.temperature = 0 ∧ q.max_tokens = 100 ∧ q.n = 1 ∧
      vq.temperature = 0 ∧ vq.max_tokens = 100 ∧ vq.n = 1 ∧
      ((buildCalls (ChatReadRetrieveReadApproach.run_until_final_call exTextCfg
        (exCollab [exResult]) exMessages exOverrides [] false)).head?.map
          BuildRequest.max_tokens = some ((exTextCfg.chatgpt_token_limit : Int) - 100)) ∧
      ((buildCalls (ChatReadRetrieveReadVisionApproach.run_until_final_call exVisionCfg
        (exCollab [exResult]) exMessages exOverrides [] false)).head?.map
          BuildRequest.max_tokens = some ((exVisionCfg.chatgpt_token_limit : Int) - 100))) :=
  ⟨rfl, rfl, c6_query_call_parameters exTextCfg exVisionCfg (exCollab [exResult])
    exMessages exOverrides [] false exLast "What is the return policy?" rfl rfl⟩

/-- C7: text variant, grounded path: the final prompt's new user content is
the original question followed by "\n\nSources:\n" and the newline-joined
sources, the system prompt is the prompt-template/follow-up derived system
message (no sources in it), the prompt is built with a budget of
(model token limit − 1024) tokens, and the deferred final model call uses the
caller temperature (default 0.3), max_tokens 1024, n=1, the caller's
streaming flag and the caller's seed. -/
theorem c7_text_grounded_final_call
    (cfg : TextApproachConfig) (co : Collaborators)
    (messages : List ChatMessage) (overrides : Overrides)
    (auth_claims : AuthClaims) (should_stream : Bool)
    (lastMessage : ChatMessage) (orig : String)
    (info : ExtraInfo) (chat : ChatCall)
    (hlast : messages.getLast? = some lastMessage)
    (hstr : lastMessage.content = .text orig)
    (hres : (ChatReadRetrieveReadApproach.run_until_final_call cfg co messages overrides
        auth_claims should_stream).result = .pair info chat) :
    ∃ sr ab,
      searchCalls (ChatReadRetrieveReadApproach.run_until_final_call cfg co messages
        overrides auth_claims should_stream) = [sr] ∧
      (buildCalls (ChatReadRetrieveReadApproach.run_until_final_call cfg co messages
        overrides auth_claims should_stream)).getLast? = some ab ∧
      ab.new_user_content = .text (orig ++ "\n\nSources:\n" ++
        String.intercalate "\n" (get_sources_content (co.search sr)
          overrides.semantic_captions false)) ∧
      ab.system_prompt = co.get_system_prompt overrides.prompt_template
        (if overrides.suggest_followup_questions then co.follow_up_questions_prompt_content
         else "") ∧
      ab.past_messages = messages.dropLast ∧
      ab.max_tokens = (cfg.chatgpt_token_limit : Int) - 1024 ∧
      chat.msgs = co.build_messages ab ∧
      chat.temperature = overrides.temperature.getD (3 / 10) ∧
      chat.max_tokens = 1024 ∧ chat.n = 1 ∧ chat.stream = should_stream ∧
      chat.seed = overrides.seed := by
  rw [show ChatReadRetrieveReadApproach.run_until_final_call cfg co messages overrides
        auth_claims should_stream =
      ChatReadRetrieveReadApproach.run
        ⟨cfg, co, messages, overrides, auth_claims, should_stream⟩ from rfl] at hres ⊢
  by_cases he : (ChatReadRetrieveReadApproach.sources_content
      ⟨cfg, co, messages, overrides, auth_claims, should_stream⟩ orig).isEmpty = true
  · rw [text_run_empty _ lastMessage orig hlast hstr he] at hres
    simp at hres
  · have hne : (ChatReadRetrieveReadApproach.sources_content
        ⟨cfg, co, messages, overrides, auth_claims, should_stream⟩ orig).isEmpty = false := by
      simpa using he
    rw [text_run_grounded _ lastMessage orig hlast hstr hne] at hres ⊢
    simp only [RunResult.pair.injEq] at hres
    obtain ⟨hinfo, hchat⟩ := hres
    subst hchat
    refine ⟨ChatReadRetrieveReadApproach.search_request
        ⟨cfg, co, messages, overrides, auth_claims, should_stream⟩ orig,
      ChatReadRetrieveReadApproach.answer_build_grounded
        ⟨cfg, co, messages, overrides, auth_claims, should_stream⟩ orig,
      ?_, ?_, ?_, rfl, rfl, rfl, rfl, rfl, rfl, rfl, rfl, rfl⟩
    · simp [searchCalls, text_calls_before_eventSearch, eventSearch]
    · simp [buildCalls, text_calls_before_eventBuild, eventBuild]
    · simp [ChatReadRetrieveReadApproach.answer_build_grounded,
        ChatReadRetrieveReadApproach.sources_content, ChatReadRetrieveReadApproach.results,
        ChatReadRetrieveReadApproach.search_request]

theorem c7_witness :
    ∃ info chat,
      (ChatReadRetrieveReadApproach.run_until_final_call exTextCfg (exCollab [exResult])
        exMessages exOverrides [] false).result = RunResult.pair info chat ∧
      (∃ sr ab,
        searchCalls (ChatReadRetrieveReadApproach.run_until_final_call exTextCfg
          (exCollab [exResult]) exMessages exOverrides [] false) = [sr] ∧
        (buildCalls (ChatReadRetrieveReadApproach.run_until_final_call exTextCfg
          (exCollab [exResult]) exMessages exOverrides [] false)).getLast? = some ab ∧
        ab.new_user_content = .text ("What is the return policy?" ++ "\n\nSources:\n" ++
          String.intercalate "\n" (get_sources_content ((exCollab [exResult]).search sr)
            exOverrides.semantic_captions false)) ∧
        ab.system_prompt = (exCollab [exResult]).get_system_prompt
          exOverrides.prompt_template
          (if exOverrides.suggest_followup_questions then
            (exCollab [exResult]).follow_up_questions_prompt_content else "") ∧
        ab.past_messages = exMessages.dropLast ∧
        ab.max_tokens = (exTextCfg.chatgpt_token_limit : Int) - 1024 ∧
        chat.msgs = (exCollab [exResult]).build_messages ab ∧
        chat.temperature = exOverrides.temperature.getD (3 / 10) ∧
        chat.max_tokens = 1024 ∧ chat.n = 1 ∧ chat.stream = false ∧
        chat.seed = exOverrides.seed) :=
  ⟨_, _, rfl,
    c7_text_grounded_final_call exTextCfg (exCollab [exResult]) exMessages exOverrides
      [] false exLast "What is the return policy?" _ _ rfl rfl rfl⟩

/-- C8: vision variant with image-sending enabled (gpt4v_input is
"textAndImages", "images" or absent): an image fetch is attempted for every
retrieved result in retrieval order, results whose fetch yields no URL are
skipped, data_points.images is exactly the resolved URLs in order, and with
gpt4v_input = "images" the final user content is exactly one text part
holding the original question (no sources text) followed by one image part
per resolved URL. -/
theorem c8_vision_image_handling
    (vcfg : VisionApproachConfig) (co : Collaborators)
    (messages : List ChatMessage) (overrides : Overrides)
    (auth_claims : AuthClaims) (should_stream : Bool)
    (lastMessage : ChatMessage) (orig : String)
    (vinfo : ExtraInfo) (vchat : ChatCall)
    (hlast : messages.getLast? = some lastMessage)
    (hstr : lastMessage.content = .text orig)
    (hres : (ChatReadRetrieveReadVisionApproach.run_until_final_call vcfg co messages
        overrides auth_claims should_stream).result = .pair vinfo vchat)
    (himg : overrides.gpt4v_input = some "textAndImages" ∨
      overrides.gpt4v_input = some "images" ∨ overrides.gpt4v_input = none) :
    ∃ sr ab,
      searchCalls (ChatReadRetrieveReadVisionApproach.run_until_final_call vcfg co messages
        overrides auth_claims should_stream) = [sr] ∧
      imageFetches (ChatReadRetrieveReadVisionApproach.run_until_final_call vcfg co messages
        overrides auth_claims should_stream) = co.search sr ∧
      vinfo.data_points.images = some ((co.search sr).filterMap co.fetch_image) ∧
      (buildCalls (ChatReadRetrieveReadVisionApproach.run_until_final_call vcfg co messages
        overrides auth_claims should_stream)).getLast? = some ab ∧
      (overrides.gpt4v_input = some "images" →
        ab.new_user_content = .parts (.textPart orig ::
          ((co.search sr).filterMap co.fetch_image).map .imagePart)) := by
  rw [show ChatReadRetrieveReadVisionApproach.run_until_final_call vcfg co messages overrides
        auth_claims should_stream =
      ChatReadRetrieveReadVisionApproach.run
        ⟨vcfg, co, messages, overrides, auth_claims, should_stream⟩ from rfl] at hres ⊢
  have hsend : ChatReadRetrieveReadVisionApproach.send_images_to_gptvision
      ⟨vcfg, co, messages, overrides, auth_claims, should_stream⟩ = true := by
    rcases himg with h | h | h <;>
      simp [ChatReadRetrieveReadVisionApproach.send_images_to_gptvision, h]
  rw [vision_run_eq _ lastMessage orig hlast hstr] at hres ⊢
  simp only [RunResult.pair.injEq] at hres
  obtain ⟨hinfo, hchat⟩ := hres
  subst hinfo
  refine ⟨ChatReadRetrieveReadVisionApproach.search_request
      ⟨vcfg, co, messages, overrides, auth_claims, should_stream⟩ orig,
    ChatReadRetrieveReadVisionApproach.answer_build
      ⟨vcfg, co, messages, overrides, auth_claims, should_stream⟩ orig,
    ?_, ?_, ?_, ?_, ?_⟩
  · simp [searchCalls, vision_embed_events_eventSearch, vision_fetch_events_eventSearch,
      eventSearch]
  · simp [imageFetches, vision_embed_events_eventImageFetch,
      vision_fetch_events_eventImageFetch, eventImageFetch, hsend,
      ChatReadRetrieveReadVisionApproach.results,
      ChatReadRetrieveReadVisionApproach.search_request]
  · simp [ChatReadRetrieveReadVisionApproach.data_points,
      ChatReadRetrieveReadVisionApproach.image_list, hsend,
      ChatReadRetrieveReadVisionApproach.results,
      ChatReadRetrieveReadVisionApproach.search_request]
  · simp [buildCalls, vision_embed_events_eventBuild, vision_fetch_events_eventBuild,
      eventBuild]
  · intro hin
    have hst : ChatReadRetrieveReadVisionApproach.send_text_to_gptvision
        ⟨vcfg, co, messages, overrides, auth_claims, should_stream⟩ = false := by
      simp [ChatReadRetrieveReadVisionApproach.send_text_to_gptvision, hin]
    simp [ChatReadRetrieveReadVisionApproach.answer_build,
      ChatReadRetrieveReadVisionApproach.user_content, hst,
      ChatReadRetrieveReadVisionApproach.image_list, hsend,
      ChatReadRetrieveReadVisionApproach.results,
      ChatReadRetrieveReadVisionApproach.search_request]

/-- C10: a present retrieval_mode outside the three recognized values turns
both search flags off in both variants, computes no embedding (the vector
list stays empty), and still invokes the search collaborator once with both
matching modes disabled. -/
theorem c10_unknown_retrieval_mode_disables_both
    (cfg : TextApproachConfig) (vcfg : VisionApproachConfig) (co : Collaborators)
    (messages : List ChatMessage) (overrides : Overrides)
    (auth_claims : AuthClaims) (should_stream : Bool)
    (lastMessage : ChatMessage) (orig : String) (m : String)
    (hlast : messages.getLast? = some lastMessage)
    (hstr : lastMessage.content = .text orig)
    (hmode : overrides.retrieval_mode = some m)
    (hm1 : m ≠ "text") (hm2 : m ≠ "vectors") (hm3 : m ≠ "hybrid") :
    ∃ sr vr,
      searchCalls (ChatReadRetrieveReadApproach.run_until_final_call cfg co messages
        overrides auth_claims should_stream) = [sr] ∧
      searchCalls (ChatReadRetrieveReadVisionApproach.run_until_final_call vcfg co messages
        overrides auth_claims should_stream) = [vr] ∧
      sr.use_text_search = false ∧ sr.use_vector_search = false ∧ sr.vectors = [] ∧
      vr.use_text_search = false ∧ vr.use_vector_search = false ∧ vr.vectors = [] ∧
      embedTextCalls (ChatReadRetrieveReadApproach.run_until_final_call cfg co messages
        overrides auth_claims should_stream) = [] ∧
      embedImageCalls (ChatReadRetrieveReadApproach.run_until_final_call cfg co messages
        overrides auth_claims should_stream) = [] ∧
      embedTextCalls (ChatReadRetrieveReadVisionApproach.run_until_final_call vcfg co
        messages overrides auth_claims should_stream) = [] ∧
      embedImageCalls (ChatReadRetrieveReadVisionApproach.run_until_final_call vcfg co
        messages overrides auth_claims should_stream) = [] := by
  rw [show ChatReadRetrieveReadApproach.run_until_final_call cfg co messages overrides
        auth_claims should_stream =
      ChatReadRetrieveReadApproach.run
        ⟨cfg, co, messages, overrides, auth_claims, should_stream⟩ from rfl,
    show ChatReadRetrieveReadVisionApproach.run_until_final_call vcfg co messages overrides
        auth_claims should_stream =
      ChatReadRetrieveReadVisionApproach.run
        ⟨vcfg, co, messages, overrides, auth_claims, should_stream⟩ from rfl]
  have htf : ChatReadRetrieveReadApproach.use_text_search
      ⟨cfg, co, messages, overrides, auth_claims, should_stream⟩ = false := by
    simp [ChatReadRetrieveReadApproach.use_text_search, hmode, hm1, hm3]
  have hvf : ChatReadRetrieveReadApproach.use_vector_search
      ⟨cfg, co, messages, overrides, auth_claims, should_stream⟩ = false := by
    simp [ChatReadRetrieveReadApproach.use_vector_search, hmode, hm2, hm3]
  have htf2 : ChatReadRetrieveReadVisionApproach.use_text_search
      ⟨vcfg, co, messages, overrides, auth_claims, should_stream⟩ = false := by
    simp [ChatReadRetrieveReadVisionApproach.use_text_search, hmode, hm1, hm3]
  have hvf2 : ChatReadRetrieveReadVisionApproach.use_vector_search
      ⟨vcfg, co, messages, overrides, auth_claims, should_stream⟩ = false := by
    simp [ChatReadRetrieveReadVisionApproach.use_vector_search, hmode, hm2, hm3]
  have hve : ChatReadRetrieveReadVisionApproach.embed_events
      ⟨vcfg, co, messages, overrides, auth_claims, should_stream⟩ orig = [] := by
    simp [ChatReadRetrieveReadVisionApproach.embed_events, hvf2]
  refine ⟨ChatReadRetrieveReadApproach.search_request
      ⟨cfg, co, messages, overrides, auth_claims, should_stream⟩ orig,
    ChatReadRetrieveReadVisionApproach.search_request
      ⟨vcfg, co, messages, overrides, auth_claims, should_stream⟩ orig,
    ?_, ?_, ?_, ?_, ?_, ?_, ?_, ?_, ?_, ?_, ?_, ?_⟩
  · simp [searchCalls,
      text_run_calls ⟨cfg, co, messages, overrides, auth_claims, should_stream⟩
        lastMessage orig hlast hstr,
      text_calls_before_eventSearch, eventSearch]
  · simp [searchCalls,
      vision_run_eq ⟨vcfg, co, messages, overrides, auth_claims, should_stream⟩
        lastMessage orig hlast hstr,
      vision_embed_events_eventSearch, vision_fetch_events_eventSearch, eventSearch]
  · simpa [ChatReadRetrieveReadApproach.search_request] using htf
  · simpa [ChatReadRetrieveReadApproach.search_request] using hvf
  · simp [ChatReadRetrieveReadApproach.search_request, ChatReadRetrieveReadApproach.vectors,
      hvf]
  · simpa [ChatReadRetrieveReadVisionApproach.search_request] using htf2
  · simpa [ChatReadRetrieveReadVisionApproach.search_request] using hvf2
  · simp [ChatReadRetrieveReadVisionApproach.search_request,
      ChatReadRetrieveReadVisionApproach.vectors, hvf2]
  · simp [embedTextCalls,
      text_run_calls ⟨cfg, co, messages, overrides, auth_claims, should_stream⟩
        lastMessage orig hlast hstr,
      text_calls_before_eventEmbedText, eventEmbedText, hvf]
  · simp [embedImageCalls,
      text_run_calls ⟨cfg, co, messages, overrides, auth_claims, should_stream⟩
        lastMessage orig hlast hstr,
      text_calls_before_eventEmbedImage, eventEmbedImage]
  · simp [embedTextCalls,
      vision_run_eq ⟨vcfg, co, messages, overrides, auth_claims, should_stream⟩
        lastMessage orig hlast hstr,
      hve, vision_fetch_events_eventEmbedText, eventEmbedText]
  · simp [embedImageCalls,
      vision_run_eq ⟨vcfg, co, messages, overrides, auth_claims, should_stream⟩
        lastMessage orig hlast hstr,
      hve, vision_fetch_events_eventEmbedImage, eventEmbedImage]

/-- exOverrides with the image-only vision input mode. -/
def exOverridesImages : Overrides :=
  { exOverrides with gpt4v_input := some "images" }

/-- exOverrides with an unrecognized retrieval mode. -/
def exOverridesNone : Overrides :=
  { exOverrides with retrieval_mode := some "none" }

theorem c8_witness :
    ∃ vinfo vchat,
      (ChatReadRetrieveReadVisionApproach.run_until_final_call exVisionCfg
        (exCollab [exResult, exResultNoImage]) exMessages exOverridesImages []
        false).result = RunResult.pair vinfo vchat ∧
      (exOverridesImages.gpt4v_input = some "textAndImages" ∨
        exOverridesImages.gpt4v_input = some "images" ∨
        exOverridesImages.gpt4v_input = none) ∧
      (∃ sr ab,
        searchCalls (ChatReadRetrieveReadVisionApproach.run_until_final_call exVisionCfg
          (exCollab [exResult, exResultNoImage]) exMessages exOverridesImages []
          false) = [sr] ∧
        imageFetches (ChatReadRetrieveReadVisionApproach.run_until_final_call exVisionCfg
          (exCollab [exResult, exResultNoImage]) exMessages exOverridesImages []
          false) = (exCollab [exResult, exResultNoImage]).search sr ∧
        vinfo.data_points.images =
          some (((exCollab [exResult, exResultNoImage]).search sr).filterMap
            (exCollab [exResult, exResultNoImage]).fetch_image) ∧
        (buildCalls (ChatReadRetrieveReadVisionApproach.run_until_final_call exVisionCfg
          (exCollab [exResult, exResultNoImage]) exMessages exOverridesImages []
          false)).getLast? = some ab ∧
        (exOverridesImages.gpt4v_input = some "images" →
          ab.new_user_content = .parts (.textPart "What is the return policy?" ::
            (((exCollab [exResult, exResultNoImage]).search sr).filterMap
              (exCollab [exResult, exResultNoImage]).fetch_image).map .imagePart))) :=
  ⟨_, _, rfl, Or.inr (Or.inl rfl),
    c8_vision_image_handling exVisionCfg (exCollab [exResult, exResultNoImage]) exMessages
      exOverridesImages [] false exLast "What is the return policy?" _ _ rfl rfl rfl
      (Or.inr (Or.inl rfl))⟩

theorem c10_witness :
    exMessages.getLast? = some exLast ∧
    exLast.content = .text "What is the return policy?" ∧
    exOverridesNone.retrieval_mode = some "none" ∧
    ("none" ≠ "text" ∧ "none" ≠ "vectors" ∧ "none" ≠ "hybrid") ∧
    (∃ sr vr,
      searchCalls (ChatReadRetrieveReadApproach.run_until_final_call exTextCfg
        (exCollab []) exMessages exOverridesNone [] false) = [sr] ∧
      searchCalls (ChatReadRetrieveReadVisionApproach.run_until_final_call exVisionCfg
        (exCollab []) exMessages exOverridesNone [] false) = [vr] ∧
      sr.use_text_search = false ∧ sr.use_vector_search = false ∧ sr.vectors = [] ∧
      vr.use_text_search = false ∧ vr.use_vector_search = false ∧ vr.vectors = [] ∧
      embedTextCalls (ChatReadRetrieveReadApproach.run_until_final_call exTextCfg
        (exCollab []) exMessages exOverridesNone [] false) = [] ∧
      embedImageCalls (ChatReadRetrieveReadApproach.run_until_final_call exTextCfg
        (exCollab []) exMessages exOverridesNone [] false) = [] ∧
      embedTextCalls (ChatReadRetrieveReadVisionApproach.run_until_final_call exVisionCfg
        (exCollab []) exMessages exOverridesNone [] false) = [] ∧
      embedImageCalls (ChatReadRetrieveReadVisionApproach.run_until_final_call exVisionCfg
        (exCollab []) exMessages exOverridesNone [] false) = []) :=
  ⟨rfl, rfl, rfl, ⟨by decide, by decide, by decide⟩,
    c10_unknown_retrieval_mode_disables_both exTextCfg exVisionCfg (exCollab [])
      exMessages exOverridesNone [] false exLast "What is the return policy?" "none"
      rfl rfl rfl (by decide) (by decide) (by decide)⟩

end AzureChat
